import Mathlib

/-!
Shallow embedding of the AskDB repository (schema.py and askdb.py).

External collaborators (database drivers, the fuzzy scorer `process.extractOne`
and the pretrained text-generation model) are modelled as explicit function
parameters; Python exceptions are modelled with `Except String`, Python `None`
with `Option`, and Python truthiness explicitly where the source relies on it.
-/

set_option linter.unusedVariables false
set_option maxRecDepth 100000

namespace AskDB

/-- A database row / tuple of strings, as fetched by a cursor. -/
abbrev Row := List String

/-- Python `r[i]` on a tuple: raises IndexError when out of range. -/
def pyGet (r : Row) (i : Nat) : Except String String :=
  match r.get? i with
  | some v => Except.ok v
  | none => Except.error "IndexError: tuple index out of range"

/-- Python list comprehension `[f x for x in xs]` where `f` may raise. -/
def listCompExcept (f : α → Except String β) : List α → Except String (List β)
  | [] => Except.ok []
  | a :: as =>
    match f a with
    | Except.error e => Except.error e
    | Except.ok b =>
      match listCompExcept f as with
      | Except.error e => Except.error e
      | Except.ok bs => Except.ok (b :: bs)

/-- Python `x or d` for an optional int field (None and 0 are falsy). -/
def pyOrNat (p : Option Nat) (d : Nat) : Option Nat :=
  match p with
  | none => some d
  | some 0 => some d
  | some n => some n

/-- Python f-string rendering of an optional string (None prints as "None"). -/
def pyStr (o : Option String) : String :=
  match o with
  | none => "None"
  | some x => x

/-- Python f-string rendering of an optional int (None prints as "None"). -/
def pyStrNat (o : Option Nat) : String :=
  match o with
  | none => "None"
  | some n => toString n

/-- Python `str.lower()`, character by character. -/
def pyLower (s : String) : String :=
  (s.toList.map Char.toLower).asString

/-- Helper for `pySplitWs`: split a character list on whitespace runs,
accumulating the current word reversed; empty words are dropped, as Python
`str.split()` does. -/
def splitWsAux : List Char → List Char → List String
  | [], cur => if cur = [] then [] else [cur.reverse.asString]
  | c :: cs, cur =>
    if c.isWhitespace then
      (if cur = [] then splitWsAux cs [] else cur.reverse.asString :: splitWsAux cs [])
    else splitWsAux cs (c :: cur)

/-- Python `query.lower().split()`: lowercase, split on whitespace runs,
no empty tokens. -/
def pySplitWs (q : String) : List String :=
  splitWsAux (q.toList.map Char.toLower) []

/-- The session object built by the `AskDB.__init__` of schema.py, with the connection
handle abstract. -/
structure Session (Conn : Type) where
  db_type : String
  database_name : String
  host : Option String
  port : Option Nat
  username : Option String
  password : Option String
  collection_name : Option String
  uri : Option String
  connection : Option Conn

/-- The external collaborators of schema.py: one connection constructor per
driver library, plus cursor acquisition and `cursor.execute(...)` followed by
`cursor.fetchall()`. Each may raise (`Except.error`). -/
structure Env (Conn Cursor : Type) where
  psycopg2_connect :
    Option String → Option Nat → Option String → Option String → String → Except String Conn
  pymysql_connect :
    Option String → Option Nat → Option String → Option String → String → Except String Conn
  mongo_client : String → Except String Conn
  sqlite3_connect : String → Except String Conn
  cursor : Conn → Except String Cursor
  execFetch : Cursor → String → Except String (List Row)

variable {Conn Cursor : Type}

/-- Embeds `AskDB.set_default_ports`: default ports per backend kind; the sqlite
branch clears host, port, username and password. -/
def set_default_ports (s : Session Conn) : Session Conn :=
  if s.db_type = "postgresql" then { s with port := pyOrNat s.port 5432 }
  else if s.db_type = "mysql" then { s with port := pyOrNat s.port 3306 }
  else if s.db_type = "mongodb" then { s with port := pyOrNat s.port 27017 }
  else if s.db_type = "sqlite" then
    { s with host := none, port := none, username := none, password := none }
  else s

/-- The URI argument passed to `MongoClient` in `AskDB.connect`:
`self.uri or f"mongodb://{username}:{password}@{host}:{port}"`
(an empty-string uri is falsy in Python). -/
def mongoUri (s : Session Conn) : String :=
  let composed :=
    "mongodb://" ++ pyStr s.username ++ ":" ++ pyStr s.password ++ "@" ++
      pyStr s.host ++ ":" ++ pyStrNat s.port
  match s.uri with
  | none => composed
  | some u => if u = "" then composed else u

/-- Embeds `AskDB.connect`: dispatch on the (lowered) backend kind string; any raised
error — a driver failure or the `ValueError` of the else branch — is caught by
the surrounding `except`, leaving the connection field unchanged. -/
def connect (env : Env Conn Cursor) (s : Session Conn) : Session Conn :=
  if s.db_type = "postgresql" then
    match env.psycopg2_connect s.host s.port s.username s.password s.database_name with
    | Except.ok c => { s with connection := some c }
    | Except.error _ => s
  else if s.db_type = "mysql" then
    match env.pymysql_connect s.host s.port s.username s.password s.database_name with
    | Except.ok c => { s with connection := some c }
    | Except.error _ => s
  else if s.db_type = "mongodb" then
    match env.mongo_client (mongoUri s) with
    | Except.ok c => { s with connection := some c }
    | Except.error _ => s
  else if s.db_type = "sqlite" then
    match env.sqlite3_connect s.database_name with
    | Except.ok c => { s with connection := some c }
    | Except.error _ => s
  else
    s

/-- The fields of `AskDB.__init__` before `connect` runs: the backend kind is
lowercased, the connection placeholder is `None`, then `set_default_ports`. -/
def initSession (Conn : Type) (db_type database_name : String) (host : String)
    (port : Option Nat) (username password collection_name uri : Option String) :
    Session Conn :=
  set_default_ports
    { db_type := pyLower db_type
      database_name := database_name
      host := some host
      port := port
      username := username
      password := password
      collection_name := collection_name
      uri := uri
      connection := none }

/-- Embeds `AskDB.__init__`: field setup, default ports, then connection attempt.
(The model loading that follows touches no session field.) -/
def init (env : Env Conn Cursor) (db_type database_name : String) (host : String)
    (port : Option Nat) (username password collection_name uri : Option String) :
    Session Conn :=
  connect env
    (initSession Conn db_type database_name host port username password collection_name uri)

/-- The text `f"PRAGMA table_info({table_name})"`. -/
def sqliteSchemaQuery (table_name : String) : String :=
  "PRAGMA table_info(" ++ table_name ++ ")"

/-- A single quote character, for interpolated SQL text. -/
def singleQuote : String :=
  String.singleton (Char.ofNat 39)

/-- The interpolated information_schema query of the postgresql branch. -/
def postgresSchemaQuery (table_name : String) : String :=
  "SELECT column_name, data_type FROM information_schema.columns WHERE table_name = "
    ++ singleQuote ++ table_name ++ singleQuote

/-- The text `f"DESCRIBE {table_name}"`. -/
def mysqlSchemaQuery (table_name : String) : String :=
  "DESCRIBE " ++ table_name

/-- Builds `(row[i], row[j])` as a two-element row; either index may raise. -/
def pairRow (i j : Nat) (row : Row) : Except String Row :=
  match pyGet row i with
  | Except.error e => Except.error e
  | Except.ok a =>
    match pyGet row j with
    | Except.error e => Except.error e
    | Except.ok b => Except.ok [a, b]

/-- Outcome of `AskDB.get_schema`, one constructor per exit path of the
source: the no-connection early return, the caught-exception return, the
"Schema fetching is not supported for MongoDB" return, and success. -/
inductive GetSchemaResult
  | noConnection
  | fetchError (msg : String)
  | schemaUnavailable
  | ok (schema : List Row)
deriving DecidableEq, Repr

/-- The Python return value of a `GetSchemaResult`: `None` on every failure
path, the schema list on success. -/
def GetSchemaResult.value : GetSchemaResult → Option (List Row)
  | GetSchemaResult.ok schema => some schema
  | _ => none

/-- Embeds `AskDB.get_schema`: check the connection, acquire a cursor, run the
backend-specific introspection query and normalize rows; all raised errors
inside the `try` are caught and turn into a `None` return. -/
def get_schema (env : Env Conn Cursor) (s : Session Conn) (table_name : String) :
    GetSchemaResult :=
  match s.connection with
  | none => GetSchemaResult.noConnection
  | some conn =>
    match env.cursor conn with
    | Except.error e => GetSchemaResult.fetchError e
    | Except.ok cur =>
      if s.db_type = "sqlite" then
        match env.execFetch cur (sqliteSchemaQuery table_name) with
        | Except.error e => GetSchemaResult.fetchError e
        | Except.ok rows =>
          match listCompExcept (pairRow 1 2) rows with
          | Except.error e => GetSchemaResult.fetchError e
          | Except.ok schema => GetSchemaResult.ok schema
      else if s.db_type = "postgresql" then
        match env.execFetch cur (postgresSchemaQuery table_name) with
        | Except.error e => GetSchemaResult.fetchError e
        | Except.ok rows => GetSchemaResult.ok rows
      else if s.db_type = "mysql" then
        match env.execFetch cur (mysqlSchemaQuery table_name) with
        | Except.error e => GetSchemaResult.fetchError e
        | Except.ok rows =>
          match listCompExcept (pairRow 0 1) rows with
          | Except.error e => GetSchemaResult.fetchError e
          | Except.ok schema => GetSchemaResult.ok schema
      else
        GetSchemaResult.schemaUnavailable

/-- The fuzzy scorer `process.extractOne(word, choices)`: best choice and its
0–100 integer score, or `None` when there are no choices. An external
collaborator, kept as a parameter. -/
abbrev ExtractOne := String → List String → Option (String × Nat)

/-- The matching loop of `AskDB.match_columns`: for each query word take the
best fuzzy match and keep it when the score exceeds 60; the set is modelled
as a duplicate-free list in insertion order. A `None` from the scorer makes
the tuple unpacking raise, uncaught in the source. -/
def matchLoop (ext : ExtractOne) (column_names : List String) :
    List String → List String → Except String (List String)
  | [], acc => Except.ok acc
  | word :: ws, acc =>
    match ext word column_names with
    | none => Except.error "TypeError: cannot unpack non-sequence NoneType"
    | some (best_match, score) =>
      matchLoop ext column_names ws
        (if 60 < score then (if best_match ∈ acc then acc else acc ++ [best_match]) else acc)

/-- Embeds `AskDB.match_columns`: fetch the schema, return `None` when it is falsy
(`None` or empty), otherwise extract column names (`col[0]`, which may raise
uncaught) and run the fuzzy-matching loop over the lowercased
whitespace-split query. -/
def match_columns (env : Env Conn Cursor) (ext : ExtractOne) (s : Session Conn)
    (user_query table_name : String) : Except String (Option (List String)) :=
  match (get_schema env s table_name).value with
  | none => Except.ok none
  | some schema =>
    if schema = [] then Except.ok none
    else
      match listCompExcept (fun col => pyGet col 0) schema with
      | Except.error e => Except.error e
      | Except.ok column_names =>
        match matchLoop ext column_names (pySplitWs user_query) [] with
        | Except.error e => Except.error e
        | Except.ok matched => Except.ok (some matched)

/-- Renders `f"{col[0]} ({col[1]})"` for one schema row. -/
def schemaInfoEntry (col : Row) : Except String String :=
  match pyGet col 0 with
  | Except.error e => Except.error e
  | Except.ok n =>
    match pyGet col 1 with
    | Except.error e => Except.error e
    | Except.ok t => Except.ok (n ++ " (" ++ t ++ ")")

/-- The line `schema_info = ", ".join([f"{col[0]} ({col[1]})" for col in schema])`. -/
def schema_info_of (schema : List Row) : Except String String :=
  match listCompExcept schemaInfoEntry schema with
  | Except.error e => Except.error e
  | Except.ok entries => Except.ok (String.intercalate ", " entries)

/-- The line `matched_info = ", ".join(matched_columns) if matched_columns else
schema_info` — `matched_columns` is falsy when `None` or empty. -/
def matchedInfo (matched_columns : Option (List String)) (schema_info : String) : String :=
  match matched_columns with
  | none => schema_info
  | some ms => if ms = [] then schema_info else String.intercalate ", " ms

/-- The prompt string literally assembled in `AskDB.generate_sql`; its
`Available Columns` line interpolates `schema_info`. -/
def generate_sql_prompt (user_query table_name schema_info : String) : String :=
  "Convert this natural language query into a SQL query:\n" ++
    "User Query: " ++ user_query ++ "\n" ++
    "Table Name: " ++ table_name ++ "\n" ++
    "Available Columns: " ++ schema_info ++ "\n" ++
    "Use only these columns in the SQL query."

/-- Outcome of `AskDB.generate_sql`: the no-connection return, the
failed-schema return, an uncaught exception, or the generated SQL string. -/
inductive GenResult
  | noConnection
  | schemaFailed
  | raised (msg : String)
  | sql (text : String)
deriving DecidableEq, Repr

/-- Embeds `AskDB.generate_sql`: check the connection, fetch the schema (returning
`None` when it is falsy), match columns, build `schema_info`, the dead
`matched_info` local, assemble the prompt — which interpolates `schema_info` —
and hand it to the external generation capability `gen`. -/
def generate_sql (env : Env Conn Cursor) (ext : ExtractOne) (gen : String → String)
    (s : Session Conn) (user_query table_name : String) : GenResult :=
  match s.connection with
  | none => GenResult.noConnection
  | some _ =>
    match (get_schema env s table_name).value with
    | none => GenResult.schemaFailed
    | some schema =>
      if schema = [] then GenResult.schemaFailed
      else
        match match_columns env ext s user_query table_name with
        | Except.error e => GenResult.raised e
        | Except.ok matched_columns =>
          match schema_info_of schema with
          | Except.error e => GenResult.raised e
          | Except.ok schema_info =>
            let matched_info := matchedInfo matched_columns schema_info
            let prompt := generate_sql_prompt user_query table_name schema_info
            GenResult.sql (gen prompt)

end AskDB

namespace AskdbCore

/-!
Embedding of the `AskDB` class of askdb.py (the near-duplicate core script):
`convert_to_sql` delegates to the pretrained model, `execute_query` runs the
generated SQL and catches every execution failure.
-/

/-- A fetched result row. -/
abbrev Row := List String

/-- Return value of `AskDB.execute_query`: the fetched rows, or the
`{"error": str(e)}` dictionary built in the `except` branch. -/
inductive QueryResult
  | rows (results : List Row)
  | errorValue (msg : String)
deriving DecidableEq, Repr

/-- Embeds `AskDB.convert_to_sql`: wrap the question in the fixed template and
delegate tokenization, generation and decoding to the external model `gen`. -/
def convert_to_sql (gen : String → String) (question : String) : String :=
  gen ("Convert to SQL: " ++ question)

/-- Embeds `AskDB.execute_query`: generate SQL from the question, execute and fetch
inside a `try`; any raised execution error is returned as a structured error
value holding the message. -/
def execute_query (gen : String → String) (run_sql : String → Except String (List Row))
    (question : String) : QueryResult :=
  let sql_query := convert_to_sql gen question
  match run_sql sql_query with
  | Except.ok results => QueryResult.rows results
  | Except.error e => QueryResult.errorValue e

end AskdbCore

deriving instance DecidableEq for Except

namespace AskDB

variable {Conn Cursor : Type}

/-- Every element produced by a successful list comprehension comes from
applying the body to some element of the input list. -/
theorem listCompExcept_mem {α β : Type} (f : α → Except String β) :
    ∀ (xs : List α) (ys : List β), listCompExcept f xs = Except.ok ys →
      ∀ y ∈ ys, ∃ x ∈ xs, f x = Except.ok y := by
  intro xs
  induction xs with
  | nil =>
    intro ys h y hy
    simp only [listCompExcept] at h
    injection h with h
    subst h
    simp at hy
  | cons a as ih =>
    intro ys h y hy
    simp only [listCompExcept] at h
    cases hfa : f a with
    | error e => rw [hfa] at h; simp at h
    | ok b =>
      rw [hfa] at h
      cases hrec : listCompExcept f as with
      | error e => rw [hrec] at h; simp at h
      | ok bs =>
        rw [hrec] at h
        injection h with h
        subst h
        rcases List.mem_cons.mp hy with hyb | hybs
        · exact ⟨a, List.mem_cons_self a as, hyb ▸ hfa⟩
        · obtain ⟨x, hx, hfx⟩ := ih bs hrec y hybs
          exact ⟨x, List.mem_cons_of_mem a hx, hfx⟩

/-- Membership in the conditional set-insertion step of the matching loop. -/
theorem mem_matchInsert (acc : List String) (m x : String) (sc : Nat) :
    (x ∈ (if 60 < sc then (if m ∈ acc then acc else acc ++ [m]) else acc)) ↔
      x ∈ acc ∨ (x = m ∧ 60 < sc) := by
  by_cases hsc : 60 < sc
  · by_cases hm : m ∈ acc
    · simp only [if_pos hsc, if_pos hm]
      exact ⟨Or.inl, fun h => h.elim id (fun hxm => hxm.1 ▸ hm)⟩
    · simp [if_pos hsc, if_neg hm, hsc]
  · simp [if_neg hsc, hsc]

/-- Characterization: a name is in the loop result exactly when it was already
accumulated or some query word best-matches it with a score over 60. -/
theorem matchLoop_mem (ext : ExtractOne) (cols : List String) :
    ∀ (ws acc res : List String), matchLoop ext cols ws acc = Except.ok res →
      ∀ x, (x ∈ res ↔ x ∈ acc ∨ ∃ w ∈ ws, ∃ sc, ext w cols = some (x, sc) ∧ 60 < sc) := by
  intro ws
  induction ws with
  | nil =>
    intro acc res h x
    simp only [matchLoop] at h
    injection h with h
    subst h
    simp
  | cons w ws ih =>
    intro acc res h x
    simp only [matchLoop] at h
    cases hx : ext w cols with
    | none => rw [hx] at h; simp at h
    | some p =>
      obtain ⟨m, sc⟩ := p
      rw [hx] at h
      rw [ih _ _ h x, mem_matchInsert]
      constructor
      · rintro ((hacc | ⟨hxm, hsc⟩) | ⟨w2, hw2, sc2, hext2, hsc2⟩)
        · exact Or.inl hacc
        · exact Or.inr ⟨w, List.mem_cons_self w ws, sc, hxm ▸ hx, hsc⟩
        · exact Or.inr ⟨w2, List.mem_cons_of_mem w hw2, sc2, hext2, hsc2⟩
      · rintro (hacc | ⟨w2, hw2, sc2, hext2, hsc2⟩)
        · exact Or.inl (Or.inl hacc)
        · rcases List.mem_cons.mp hw2 with rfl | hw2s
          · rw [hx] at hext2
            injection hext2 with hp
            obtain ⟨rfl, rfl⟩ := Prod.mk.injEq .. ▸ hp
            · exact Or.inl (Or.inr ⟨rfl, hsc2⟩)
          · exact Or.inr ⟨w2, hw2s, sc2, hext2, hsc2⟩

/-- The matching loop preserves freedom from duplicates. -/
theorem matchLoop_nodup (ext : ExtractOne) (cols : List String) :
    ∀ (ws acc res : List String), acc.Nodup → matchLoop ext cols ws acc = Except.ok res →
      res.Nodup := by
  intro ws
  induction ws with
  | nil =>
    intro acc res hacc h
    simp only [matchLoop] at h
    injection h with h
    exact h ▸ hacc
  | cons w ws ih =>
    intro acc res hacc h
    simp only [matchLoop] at h
    cases hx : ext w cols with
    | none => rw [hx] at h; simp at h
    | some p =>
      obtain ⟨m, sc⟩ := p
      rw [hx] at h
      refine ih _ _ ?_ h
      by_cases hsc : 60 < sc
      · by_cases hm : m ∈ acc
        · simpa [if_pos hsc, if_pos hm] using hacc
        · simp only [if_pos hsc, if_neg hm]
          exact List.Nodup.append hacc (List.nodup_singleton m)
            (by simpa [List.disjoint_singleton] using hm)
      · simpa [if_neg hsc] using hacc

/-- Lemma: `set_default_ports` never changes the backend kind tag. -/
theorem set_default_ports_db_type (s : Session Conn) :
    (set_default_ports s).db_type = s.db_type := by
  unfold set_default_ports
  split_ifs <;> rfl

/-- Lemma: `set_default_ports` never touches the connection placeholder. -/
theorem set_default_ports_connection (s : Session Conn) :
    (set_default_ports s).connection = s.connection := by
  unfold set_default_ports
  split_ifs <;> rfl

/-- Lemma: `connect` only writes the connection field: host, port, username and
password pass through every branch unchanged. -/
theorem connect_fields (env : Env Conn Cursor) (s : Session Conn) :
    (connect env s).host = s.host ∧ (connect env s).port = s.port ∧
      (connect env s).username = s.username ∧ (connect env s).password = s.password := by
  unfold connect
  split_ifs <;> (try split) <;> exact ⟨rfl, rfl, rfl, rfl⟩

/-- On an unrecognized backend kind, the raised `ValueError` is caught and the
session is returned unchanged. -/
theorem connect_unsupported (env : Env Conn Cursor) (s : Session Conn)
    (h1 : s.db_type ≠ "postgresql") (h2 : s.db_type ≠ "mysql")
    (h3 : s.db_type ≠ "mongodb") (h4 : s.db_type ≠ "sqlite") :
    connect env s = s := by
  unfold connect
  rw [if_neg (by simpa using h1), if_neg (by simpa using h2),
    if_neg (by simpa using h3), if_neg (by simpa using h4)]

/-!
Concrete fixtures: a trivial backend environment over `Unit` handles, with a
two-column `employees` schema, and small deterministic fuzzy scorers, used to
evaluate the embedded operations at concrete inputs.
-/

/-- A backend environment whose introspection returns the PRAGMA rows of a
two-column `employees` table. -/
def exEnv : Env Unit Unit where
  psycopg2_connect := fun _ _ _ _ _ => Except.ok ()
  pymysql_connect := fun _ _ _ _ _ => Except.ok ()
  mongo_client := fun _ => Except.ok ()
  sqlite3_connect := fun _ => Except.ok ()
  cursor := fun _ => Except.ok ()
  execFetch := fun _ _ =>
    Except.ok [["0", "employee_id", "int", "0", "", "0"], ["1", "salary", "int", "0", "", "0"]]

/-- A backend environment whose introspection query always raises. -/
def failEnv : Env Unit Unit where
  psycopg2_connect := fun _ _ _ _ _ => Except.ok ()
  pymysql_connect := fun _ _ _ _ _ => Except.ok ()
  mongo_client := fun _ => Except.ok ()
  sqlite3_connect := fun _ => Except.ok ()
  cursor := fun _ => Except.ok ()
  execFetch := fun _ _ => Except.error "no such table"

/-- A deterministic stand-in scorer: an exact hit scores 100, otherwise the
first choice scores 0. -/
def exExtOne : ExtractOne := fun word cols =>
  match cols with
  | [] => none
  | c :: _ => if word ∈ cols then some (word, 100) else some (c, 0)

/-- A scorer exercising the threshold boundary: token `a61` gives
`employee_id` a score of exactly 61, token `b60` gives `salary` exactly 60. -/
def thrExt : ExtractOne := fun word cols =>
  match cols with
  | [] => none
  | c :: _ =>
    if word = "a61" then some ("employee_id", 61)
    else if word = "b60" then some ("salary", 60)
    else some (c, 0)

/-- A scorer under which nothing ever clears the threshold. -/
def lowExt : ExtractOne := fun word cols =>
  match cols with
  | [] => none
  | c :: _ => some (c, 0)

/-- A live sqlite session against the trivial backend. -/
def exSession : Session Unit :=
  init exEnv "SQLite" "example.db" "localhost" none none none none none

/-- A live sqlite session whose backend raises on introspection. -/
def failSession : Session Unit :=
  init failEnv "SQLite" "example.db" "localhost" none none none none none

/-- A live mongodb session against the trivial backend. -/
def mongoSession : Session Unit :=
  init exEnv "MongoDB" "shop" "mhost" none (some "user") (some "pw") none none

/-- Lemma: `exExtOne` always returns one of its choices. -/
theorem exExtOne_mem (w : String) (cs : List String) (m : String) (sc : Nat)
    (h : exExtOne w cs = some (m, sc)) : m ∈ cs := by
  cases cs with
  | nil => simp [exExtOne] at h
  | cons c cs2 =>
    simp only [exExtOne] at h
    by_cases hw : w ∈ c :: cs2
    · rw [if_pos hw] at h
      injection h with h
      obtain ⟨h1, -⟩ := Prod.mk.injEq .. ▸ h
      exact h1 ▸ hw
    · rw [if_neg hw] at h
      injection h with h
      obtain ⟨h1, -⟩ := Prod.mk.injEq .. ▸ h
      exact h1 ▸ List.mem_cons_self c cs2

/-- C1 (code bug): in `generate_sql` the prompt interpolates `schema_info`
even when the matched-columns set is non-empty; the `matched_info` local —
whose own comment says "Use best-matched columns" — is computed and never
used. At this input the matched set is `["salary"]`, yet the returned
returned prompt has an `Available Columns` line with the full schema rendering, not the
matched list that `matchedInfo` selects. -/
theorem generate_sql_prompt_ignores_matched_columns :
    match_columns exEnv exExtOne exSession "salary" "employees" =
        Except.ok (some ["salary"]) ∧
    matchedInfo (some ["salary"]) "employee_id (int), salary (int)" = "salary" ∧
    generate_sql exEnv exExtOne id exSession "salary" "employees" =
      GenResult.sql ("Convert this natural language query into a SQL query:\n" ++
        "User Query: salary\nTable Name: employees\n" ++
        "Available Columns: employee_id (int), salary (int)\n" ++
        "Use only these columns in the SQL query.") := by
  refine ⟨by decide, by decide, by decide⟩

/-- C9: `match_columns` is deterministic — two runs over the same query and
table, with scorers that agree pointwise (two evaluations of one
deterministic scorer), produce the same result. -/
theorem match_columns_deterministic (env : Env Conn Cursor) (ext1 ext2 : ExtractOne)
    (s : Session Conn) (q t : String) (h : ∀ w cs, ext1 w cs = ext2 w cs) :
    match_columns env ext1 s q t = match_columns env ext2 s q t := by
  have hext : ext1 = ext2 := funext fun w => funext fun cs => h w cs
  rw [hext]

/-- C4: on a mongodb session, `get_schema` never yields a column list — its
Python return value is `None` for every table name — and when cursor
acquisition succeeds it exits through the "Schema fetching is not supported
for MongoDB" branch, the `SchemaUnavailable` report. -/
theorem get_schema_mongodb_absent (env : Env Conn Cursor) (s : Session Conn) (c : Conn)
    (cur : Cursor) (t : String) (hdb : s.db_type = "mongodb") (hc : s.connection = some c) :
    (get_schema env s t).value = none ∧
      (env.cursor c = Except.ok cur →
        get_schema env s t = GetSchemaResult.schemaUnavailable) := by
  have key : get_schema env s t =
      (match env.cursor c with
        | Except.error e => GetSchemaResult.fetchError e
        | Except.ok _ => GetSchemaResult.schemaUnavailable) := by
    unfold get_schema
    rw [hc]
    dsimp only
    rw [hdb]
    cases hcur : env.cursor c with
    | error e => rfl
    | ok cu =>
      dsimp only
      rw [if_neg (show ¬("mongodb" = "sqlite") by decide),
        if_neg (show ¬("mongodb" = "postgresql") by decide),
        if_neg (show ¬("mongodb" = "mysql") by decide)]
  constructor
  · rw [key]
    cases env.cursor c <;> rfl
  · intro hcur
    rw [key, hcur]

/-- Witness for C4: a mongodb session built by `init` against the trivial
backend, whose cursor acquisition succeeds. -/
theorem get_schema_mongodb_absent_witness :
    mongoSession.db_type = "mongodb" ∧
    mongoSession.connection = some () ∧
    exEnv.cursor () = Except.ok () ∧
    (get_schema exEnv mongoSession "orders").value = none ∧
    get_schema exEnv mongoSession "orders" = GetSchemaResult.schemaUnavailable := by
  have h := get_schema_mongodb_absent exEnv mongoSession () () "orders"
    (by decide) (by decide)
  exact ⟨by decide, by decide, by decide, h.1, h.2 (by decide)⟩

/-- C5: constructing a session with an unrecognized backend kind leaves the
connection unset — the `ValueError` is caught — and every later schema or
generation call detects the missing connection and returns through the
no-connection report instead of raising. -/
theorem unsupported_backend_fails_gracefully (env : Env Conn Cursor) (ext : ExtractOne)
    (gen : String → String) (db_type database_name host q t : String) (port : Option Nat)
    (username password collection_name uri : Option String)
    (h1 : pyLower db_type ≠ "postgresql") (h2 : pyLower db_type ≠ "mysql")
    (h3 : pyLower db_type ≠ "mongodb") (h4 : pyLower db_type ≠ "sqlite") :
    (init env db_type database_name host port username password collection_name uri).connection
        = none ∧
    get_schema env
        (init env db_type database_name host port username password collection_name uri) t
      = GetSchemaResult.noConnection ∧
    generate_sql env ext gen
        (init env db_type database_name host port username password collection_name uri) q t
      = GenResult.noConnection := by
  have hdb : (initSession Conn db_type database_name host port username password
      collection_name uri).db_type = pyLower db_type := by
    unfold initSession
    rw [set_default_ports_db_type]
  have hskip : init env db_type database_name host port username password collection_name uri
      = initSession Conn db_type database_name host port username password
          collection_name uri := by
    unfold init
    exact connect_unsupported env _ (by rw [hdb]; exact h1) (by rw [hdb]; exact h2)
      (by rw [hdb]; exact h3) (by rw [hdb]; exact h4)
  have hconn : (init env db_type database_name host port username password collection_name
      uri).connection = none := by
    rw [hskip]
    unfold initSession
    rw [set_default_ports_connection]
  refine ⟨hconn, ?_, ?_⟩
  · unfold get_schema
    rw [hconn]
  · unfold generate_sql
    rw [hconn]

/-- Witness for C5 at backend kind "Oracle". -/
theorem unsupported_backend_fails_gracefully_witness :
    pyLower "Oracle" ≠ "postgresql" ∧
    (init exEnv "Oracle" "db" "localhost" none none none none none).connection = none ∧
    get_schema exEnv (init exEnv "Oracle" "db" "localhost" none none none none none)
        "employees" = GetSchemaResult.noConnection ∧
    generate_sql exEnv exExtOne id
        (init exEnv "Oracle" "db" "localhost" none none none none none)
        "salary" "employees" = GenResult.noConnection := by
  have h := unsupported_backend_fails_gracefully exEnv exExtOne id "Oracle" "db"
    "localhost" "salary" "employees" none none none none none
    (by decide) (by decide) (by decide) (by decide)
  exact ⟨by decide, h.1, h.2.1, h.2.2⟩

/-- C7: construction with backend kind "sqlite" (matched after lowercasing)
clears host, port, username and password, whatever values were passed in. -/
theorem sqlite_clears_network_fields (env : Env Conn Cursor)
    (db_type database_name host : String) (port : Option Nat)
    (username password collection_name uri : Option String)
    (hdb : pyLower db_type = "sqlite") :
    (init env db_type database_name host port username password collection_name uri).host
        = none ∧
    (init env db_type database_name host port username password collection_name uri).port
        = none ∧
    (init env db_type database_name host port username password collection_name
        uri).username = none ∧
    (init env db_type database_name host port username password collection_name
        uri).password = none := by
  obtain ⟨hh, hp, hu, hpw⟩ := connect_fields env
    (initSession Conn db_type database_name host port username password collection_name uri)
  unfold init
  rw [hh, hp, hu, hpw]
  unfold initSession set_default_ports
  rw [hdb]
  dsimp only
  rw [if_neg (show ¬("sqlite" = "postgresql") by decide),
    if_neg (show ¬("sqlite" = "mysql") by decide),
    if_neg (show ¬("sqlite" = "mongodb") by decide), if_pos rfl]
  exact ⟨rfl, rfl, rfl, rfl⟩

/-- Witness for C7: "SQLite" with every network field populated. -/
theorem sqlite_clears_network_fields_witness :
    pyLower "SQLite" = "sqlite" ∧
    (init exEnv "SQLite" "example.db" "dbhost" (some 9999) (some "root")
        (some "secret") none none).host = none ∧
    (init exEnv "SQLite" "example.db" "dbhost" (some 9999) (some "root")
        (some "secret") none none).port = none ∧
    (init exEnv "SQLite" "example.db" "dbhost" (some 9999) (some "root")
        (some "secret") none none).username = none ∧
    (init exEnv "SQLite" "example.db" "dbhost" (some 9999) (some "root")
        (some "secret") none none).password = none := by
  have h := sqlite_clears_network_fields exEnv "SQLite" "example.db" "dbhost"
    (some 9999) (some "root") (some "secret") none none (by decide)
  exact ⟨by decide, h.1, h.2.1, h.2.2.1, h.2.2.2⟩

/-- C2: a query token contributes its best-matching column name to the match
set exactly when its best score is at least 61 (`score > 60` on integer
scores): a name is in the result exactly when some token best-matches it with
a score of 61 or more, so a best score of exactly 60 contributes nothing. -/
theorem match_columns_threshold_61 (env : Env Conn Cursor) (ext : ExtractOne)
    (s : Session Conn) (q t x : String) (schema : List Row) (names res : List String)
    (hs : (get_schema env s t).value = some schema)
    (hn : listCompExcept (fun col => pyGet col 0) schema = Except.ok names)
    (hm : match_columns env ext s q t = Except.ok (some res)) :
    x ∈ res ↔ ∃ w ∈ pySplitWs q, ∃ sc, ext w names = some (x, sc) ∧ 61 ≤ sc := by
  unfold match_columns at hm
  rw [hs] at hm
  dsimp only at hm
  by_cases he : schema = []
  · rw [if_pos he] at hm
    simp at hm
  · rw [if_neg he, hn] at hm
    dsimp only at hm
    cases hml : matchLoop ext names (pySplitWs q) [] with
    | error e => rw [hml] at hm; simp at hm
    | ok matched =>
      rw [hml] at hm
      injection hm with hm
      injection hm with hm
      subst hm
      rw [matchLoop_mem ext names (pySplitWs q) [] matched hml x]
      constructor
      · rintro (h0 | ⟨w, hw, sc, hext2, hsc⟩)
        · exact absurd h0 (List.not_mem_nil x)
        · exact ⟨w, hw, sc, hext2, by omega⟩
      · rintro ⟨w, hw, sc, hext2, hsc⟩
        exact Or.inr ⟨w, hw, sc, hext2, by omega⟩

/-- Witness for C2: token `a61` scores exactly 61 and lands `employee_id` in
the match set; token `b60` scores exactly 60 and contributes nothing. -/
theorem match_columns_threshold_61_witness :
    (get_schema exEnv exSession "employees").value =
        some [["employee_id", "int"], ["salary", "int"]] ∧
    listCompExcept (fun col => pyGet col 0) [["employee_id", "int"], ["salary", "int"]] =
        Except.ok ["employee_id", "salary"] ∧
    match_columns exEnv thrExt exSession "A61 b60" "employees" =
        Except.ok (some ["employee_id"]) ∧
    ("employee_id" ∈ ["employee_id"] ↔
      ∃ w ∈ pySplitWs "A61 b60", ∃ sc,
        thrExt w ["employee_id", "salary"] = some ("employee_id", sc) ∧ 61 ≤ sc) :=
  ⟨by decide, by decide, by decide,
    match_columns_threshold_61 exEnv thrExt exSession "A61 b60" "employees" "employee_id"
      [["employee_id", "int"], ["salary", "int"]] ["employee_id", "salary"] ["employee_id"]
      (by decide) (by decide) (by decide)⟩

/-- C3: when the scorer only ever returns one of its choices, every name in
the match set is the first field of some retrieved schema row, and the match
set carries no duplicates. -/
theorem match_columns_subset_nodup (env : Env Conn Cursor) (ext : ExtractOne)
    (s : Session Conn) (q t x : String) (schema : List Row) (res : List String)
    (hext : ∀ w cs m sc, ext w cs = some (m, sc) → m ∈ cs)
    (hs : (get_schema env s t).value = some schema)
    (hm : match_columns env ext s q t = Except.ok (some res)) :
    res.Nodup ∧ (x ∈ res → ∃ col ∈ schema, col.get? 0 = some x) := by
  unfold match_columns at hm
  rw [hs] at hm
  dsimp only at hm
  by_cases he : schema = []
  · rw [if_pos he] at hm; simp at hm
  · rw [if_neg he] at hm
    cases hn : listCompExcept (fun col => pyGet col 0) schema with
    | error e => rw [hn] at hm; simp at hm
    | ok names =>
      rw [hn] at hm
      dsimp only at hm
      cases hml : matchLoop ext names (pySplitWs q) [] with
      | error e => rw [hml] at hm; simp at hm
      | ok matched =>
        rw [hml] at hm
        injection hm with hm
        injection hm with hm
        subst hm
        refine ⟨matchLoop_nodup ext names (pySplitWs q) [] matched List.nodup_nil hml, ?_⟩
        intro hx
        rcases (matchLoop_mem ext names (pySplitWs q) [] matched hml x).mp hx with
          h0 | ⟨w, hw, sc, hextx, hsc⟩
        · exact absurd h0 (List.not_mem_nil x)
        · obtain ⟨col, hcol, hfcol⟩ :=
            listCompExcept_mem _ schema names hn x (hext w names x sc hextx)
          refine ⟨col, hcol, ?_⟩
          unfold pyGet at hfcol
          cases hg : col.get? 0 with
          | none => rw [hg] at hfcol; simp at hfcol
          | some v =>
            rw [hg] at hfcol
            injection hfcol with hv
            rw [hv]

/-- Witness for C3 with the exact-hit scorer at a concrete session. -/
theorem match_columns_subset_nodup_witness :
    (get_schema exEnv exSession "employees").value =
        some [["employee_id", "int"], ["salary", "int"]] ∧
    match_columns exEnv exExtOne exSession "salary" "employees" =
        Except.ok (some ["salary"]) ∧
    (List.Nodup ["salary"] ∧
      ("salary" ∈ ["salary"] →
        ∃ col ∈ [["employee_id", "int"], ["salary", "int"]], col.get? 0 = some "salary")) :=
  ⟨by decide, by decide,
    match_columns_subset_nodup exEnv exExtOne exSession "salary" "employees" "salary"
      [["employee_id", "int"], ["salary", "int"]] ["salary"]
      exExtOne_mem (by decide) (by decide)⟩

/-- C10: `match_columns` returns the absent value `None` exactly when the
schema fetch yields no columns (backend failure, no connection, unsupported
backend, or an empty schema); the empty set comes back only from a non-empty
retrieved schema whose every query token scored at most 60. -/
theorem match_columns_absent_vs_empty (env : Env Conn Cursor) (ext : ExtractOne)
    (s : Session Conn) (t q : String) (schema : List Row) (names : List String) :
    (((get_schema env s t).value = none ∨ (get_schema env s t).value = some []) →
      match_columns env ext s q t = Except.ok none) ∧
    ((get_schema env s t).value = some schema →
      listCompExcept (fun col => pyGet col 0) schema = Except.ok names →
      match_columns env ext s q t = Except.ok (some []) →
      schema ≠ [] ∧ ∀ w ∈ pySplitWs q, ∀ m sc, ext w names = some (m, sc) → sc ≤ 60) := by
  constructor
  · rintro (hv | hv)
    · unfold match_columns
      rw [hv]
    · unfold match_columns
      rw [hv]
      dsimp only
      rw [if_pos rfl]
  · intro hs hn hm
    unfold match_columns at hm
    rw [hs] at hm
    dsimp only at hm
    by_cases he : schema = []
    · rw [if_pos he] at hm; simp at hm
    · rw [if_neg he, hn] at hm
      dsimp only at hm
      cases hml : matchLoop ext names (pySplitWs q) [] with
      | error e => rw [hml] at hm; simp at hm
      | ok matched =>
        rw [hml] at hm
        injection hm with hm
        injection hm with hm
        refine ⟨he, ?_⟩
        intro w hw m sc hext2
        by_contra hgt
        have hmem : m ∈ matched :=
          (matchLoop_mem ext names (pySplitWs q) [] matched hml m).mpr
            (Or.inr ⟨w, hw, sc, hext2, by omega⟩)
        rw [hm] at hmem
        exact absurd hmem (List.not_mem_nil m)

/-- Witness for C10: a failing backend makes `match_columns` return the
absent value, while a live schema with only sub-threshold scores yields the
empty set from a non-empty schema. -/
theorem match_columns_absent_vs_empty_witness :
    (get_schema failEnv failSession "employees").value = none ∧
    match_columns failEnv lowExt failSession "find salary" "employees" = Except.ok none ∧
    match_columns exEnv lowExt exSession "find salary" "employees" =
        Except.ok (some []) ∧
    [["employee_id", "int"], ["salary", "int"]] ≠ ([] : List Row) :=
  ⟨by decide,
    (match_columns_absent_vs_empty failEnv lowExt failSession "employees" "find salary"
        [] []).1 (Or.inl (by decide)),
    by decide,
    ((match_columns_absent_vs_empty exEnv lowExt exSession "employees" "find salary"
        [["employee_id", "int"], ["salary", "int"]] ["employee_id", "salary"]).2
      (by decide) (by decide) (by decide)).1⟩

/-- C8: a mongodb session built without a URI composes the `MongoClient`
argument from username, password, host and the port defaulted to 27017;
a supplied (non-empty) URI is passed through instead; and `connect` stores
exactly the handle `mongo_client` returns for that URI, leaving the
connection unset on failure. -/
theorem mongodb_uri_composition (env : Env Conn Cursor)
    (db_type database_name host us : String) (port : Option Nat)
    (u p cn : Option String)
    (hdb : pyLower db_type = "mongodb") (hus : us ≠ "") :
    mongoUri (initSession Conn db_type database_name host none u p cn none) =
      "mongodb://" ++ pyStr u ++ ":" ++ pyStr p ++ "@" ++ host ++ ":" ++ "27017" ∧
    mongoUri (initSession Conn db_type database_name host port u p cn (some us)) = us ∧
    (connect env (initSession Conn db_type database_name host none u p cn none)).connection =
      (match env.mongo_client
          (mongoUri (initSession Conn db_type database_name host none u p cn none)) with
        | Except.ok c => some c
        | Except.error _ => none) := by
  have h1 : initSession Conn db_type database_name host none u p cn none =
      { db_type := "mongodb", database_name := database_name, host := some host,
        port := some 27017, username := u, password := p, collection_name := cn,
        uri := none, connection := none } := by
    unfold initSession set_default_ports
    dsimp only
    rw [hdb]
    rw [if_neg (show ¬("mongodb" = "postgresql") by decide),
      if_neg (show ¬("mongodb" = "mysql") by decide), if_pos rfl]
    rfl
  have h2 : initSession Conn db_type database_name host port u p cn (some us) =
      { db_type := "mongodb", database_name := database_name, host := some host,
        port := pyOrNat port 27017, username := u, password := p, collection_name := cn,
        uri := some us, connection := none } := by
    unfold initSession set_default_ports
    dsimp only
    rw [hdb]
    rw [if_neg (show ¬("mongodb" = "postgresql") by decide),
      if_neg (show ¬("mongodb" = "mysql") by decide), if_pos rfl]
  refine ⟨?_, ?_, ?_⟩
  · rw [h1]
    rfl
  · rw [h2]
    unfold mongoUri
    dsimp only
    rw [if_neg hus]
  · rw [h1]
    unfold connect
    dsimp only
    rw [if_neg (show ¬("mongodb" = "postgresql") by decide),
      if_neg (show ¬("mongodb" = "mysql") by decide), if_pos rfl]
    cases env.mongo_client (mongoUri
        { db_type := "mongodb", database_name := database_name, host := some host,
          port := some 27017, username := u, password := p, collection_name := cn,
          uri := none, connection := none }) with
    | ok c => rfl
    | error e => rfl

/-- Witness for C8 with concrete credentials and an explicit override URI. -/
theorem mongodb_uri_composition_witness :
    pyLower "MongoDB" = "mongodb" ∧
    mongoUri (initSession Unit "MongoDB" "shop" "mhost" none (some "user") (some "pw")
        none none) = "mongodb://user:pw@mhost:27017" ∧
    mongoUri (initSession Unit "MongoDB" "shop" "mhost" (some 5) (some "user") (some "pw")
        none (some "mongodb://custom")) = "mongodb://custom" ∧
    (connect exEnv (initSession Unit "MongoDB" "shop" "mhost" none (some "user")
        (some "pw") none none)).connection = some () := by
  have h := mongodb_uri_composition exEnv "MongoDB" "shop" "mhost" "mongodb://custom"
    (some 5) (some "user") (some "pw") none (by decide) (by decide)
  exact ⟨by decide, h.1.trans (by decide), h.2.1, h.2.2.trans (by decide)⟩

/-- Witness for C9 at a concrete session and query. -/
theorem match_columns_deterministic_witness :
    match_columns exEnv exExtOne exSession "salary" "employees" =
        match_columns exEnv exExtOne exSession "salary" "employees" ∧
    match_columns exEnv exExtOne exSession "salary" "employees" =
        Except.ok (some ["salary"]) :=
  ⟨match_columns_deterministic exEnv exExtOne exExtOne exSession "salary" "employees"
      (fun _ _ => rfl),
    by decide⟩

end AskDB

namespace AskdbCore

/-- C6: `execute_query` either returns the fetched rows on success, or — when
running the generated SQL raises — returns a structured error value carrying
the failure message; no exception propagates out of it. -/
theorem execute_query_structured_result (gen : String → String)
    (run_sql : String → Except String (List Row)) (question : String) :
    (∃ results, run_sql (convert_to_sql gen question) = Except.ok results ∧
        execute_query gen run_sql question = QueryResult.rows results) ∨
    (∃ e, run_sql (convert_to_sql gen question) = Except.error e ∧
        execute_query gen run_sql question = QueryResult.errorValue e) := by
  have key : execute_query gen run_sql question =
      (match run_sql (convert_to_sql gen question) with
        | Except.ok results => QueryResult.rows results
        | Except.error e => QueryResult.errorValue e) := rfl
  cases h : run_sql (convert_to_sql gen question) with
  | ok results => exact Or.inl ⟨results, rfl, by rw [key, h]⟩
  | error e => exact Or.inr ⟨e, rfl, by rw [key, h]⟩

end AskdbCore
